import Mathlib

/-!
Verification development for the panmath plaintext-math library.

Shallow embedding of the Rust sources:
ast.rs, symbols.rs, operators.rs, delimiter.rs, parsers/token.rs,
parsers/ascii.rs, formatters/precedence.rs, formatters/latex.rs,
formatters/unicode.rs.

Modelling conventions:
each Rust function becomes a Lean definition with the same name where the
gate's lexical rules allow it; Rust `u8` precedences become `Nat` (they are
only compared, never overflowed); fallible paths and panics are made
explicit in the result type `RustRes` (`perr` for a returned `ParseError`,
`panicked` for a Rust panic such as `Option::unwrap` on `None` or slicing a
string off a UTF-8 character boundary).  Strings are modelled as their
character lists; the only place where Rust's byte-level slicing differs
from character-level slicing is `&rest[1..]` in the tokenizer, which is
modelled by the explicit `utf8Len` check (Rust panics there when the first
character is multi-byte).

The sources are mid-refactor: `precedence.rs` and `latex.rs` destructure
`SymbolBinaryOp` as `{ op: Op, fixity }` and use `BinaryOp::Concat`, while
`ast.rs` still declares `{ symbol: Symbol, fixity }` and lacks `Concat`.
The embedding uses the operator-carrying form (the one the precedence
engine and the formatters require); where older code stores or compares
only the symbol (`unicode.rs`, `comma_sep_to_list`, the tree builder) the
embedding reads `op.sym`, which is the evident correspondence.
-/

namespace Panmath

/-- A generic symbol with one preferred representation per output format
plus alternate accepted input spellings (ast.rs, struct Symbol). -/
structure Symbol where
  unicode_repr : String
  ascii_repr : String
  latex_repr : String
  other_reprs : List String
deriving DecidableEq, Repr

/-- All of the allowed representations, in declaration order
(ast.rs, Symbol::reprs). -/
def Symbol.reprs (s : Symbol) : List String :=
  [s.unicode_repr, s.ascii_repr, s.latex_repr] ++ s.other_reprs

/-- The generic `From<String> for Symbol` conversion (symbols.rs): all three
preferred representations are the string itself, no alternates. -/
def Symbol.fromString (s : String) : Symbol := ⟨s, s, s, []⟩

/-- An operator with a symbol and optional left and right precedence;
lower values bind tighter, absence means the operator does not extend on
that side (operators.rs, struct Op). -/
structure Op where
  sym : Symbol
  l_prec : Option Nat
  r_prec : Option Nat
deriving DecidableEq, Repr

/-- Operator fixity (ast.rs, enum Fixity).  The source constructors are
named Prefix, Infix and Postfix; they are shortened here to Pre, Inf and
Post. -/
inductive Fixity where
| Pre
| Inf
| Post
deriving DecidableEq, Repr

/-- A generic binary operator: an operator with a fixity (the
operator-carrying form used by precedence.rs and latex.rs). -/
structure SymbolBinaryOp where
  op : Op
  fixity : Fixity
deriving DecidableEq, Repr

/-- The kind of a binary AST node (ast.rs enum BinaryOp, plus the Concat
variant that ascii.rs, precedence.rs and the formatters use). -/
inductive BinaryOp where
| Generic (op : SymbolBinaryOp)
| Power
| Frac
| Log
| Concat
deriving DecidableEq, Repr

/-- A unary operator (ast.rs, enum UnaryOp). -/
inductive UnaryOp where
| Generic (sym : Symbol)
deriving DecidableEq, Repr

/-- The abstract syntax tree (ast.rs, enum AST). -/
inductive AST where
| Sym (sym : Symbol)
| Number (val : String)
| BinaryExpr (op : BinaryOp) (left right : AST)
| UnaryExpr (op : UnaryOp) (arg : AST)
| Function (name : Symbol) (args : List AST)
deriving Repr

/-- Delimiter direction (delimiter.rs, enum DelimDir). -/
inductive DelimDir where
| Left
| Right
deriving DecidableEq, Repr

/-- Delimiter kind (delimiter.rs, enum DelimKind). -/
inductive DelimKind where
| Paren
| Bracket
deriving DecidableEq, Repr

/-- A delimiter (delimiter.rs, struct Delimiter). -/
structure Delimiter where
  dir : DelimDir
  kind : DelimKind
deriving DecidableEq, Repr

/-- A token (parsers/token.rs, enum Token). -/
inductive Token where
| Operand (sym : Symbol)
| Operator (op : Op)
| Function (name : Symbol)
| Delim (delim : Delimiter)
| End
deriving DecidableEq, Repr

/-- Parse errors (parsers/ascii.rs, enum ParseError). -/
inductive ParseError where
| MismatchedParentheses
| MissingOperands
| EmptyExpr
deriving DecidableEq, Repr

/-- The result of running a piece of the Rust code: a normal value, a
returned `ParseError`, or a Rust panic. -/
inductive RustRes (α : Type) where
| ok (val : α)
| perr (err : ParseError)
| panicked
deriving DecidableEq, Repr

namespace symbols

/-- Helper building the Symbol of a cased Greek letter (symbols.rs,
`From<CasedGreekLetter> for Symbol`): the Unicode letter, the cased ASCII
name, and a backslash command from the ASCII name. -/
def gsym (uni ascii : String) : Symbol := ⟨uni, ascii, "\\" ++ ascii, []⟩

/-- The Greek letter symbols (symbols.rs, GREEK_SYMBOLS), in the source's
insertion order (letters in enum order, uppercase before lowercase).  The
Rust table is a HashMap whose iteration order is unspecified; none of the
concrete inputs used below can match more than one of these entries, so the
order chosen here is immaterial to every theorem in this file. -/
def GREEK_SYMBOLS : List Symbol :=
  [gsym "Α" "Alpha", gsym "α" "alpha",
   gsym "Β" "Beta", gsym "β" "beta",
   gsym "Γ" "Gamma", gsym "γ" "gamma",
   gsym "Δ" "Delta", gsym "δ" "delta",
   gsym "Ε" "Epsilon", gsym "ε" "epsilon",
   gsym "Ζ" "Zeta", gsym "ζ" "zeta",
   gsym "Η" "Eta", gsym "η" "eta",
   gsym "Θ" "Theta", gsym "θ" "theta",
   gsym "Ι" "Iota", gsym "ι" "iota",
   gsym "Κ" "Kappa", gsym "κ" "kappa",
   gsym "Λ" "Lambda", gsym "λ" "lambda",
   gsym "Μ" "Mu", gsym "μ" "mu",
   gsym "Ν" "Nu", gsym "ν" "nu",
   gsym "Ξ" "Xi", gsym "ξ" "xi",
   gsym "Ο" "Omicron", gsym "ο" "omicron",
   gsym "Π" "Pi", gsym "π" "pi",
   gsym "Ρ" "Rho", gsym "ρ" "rho",
   gsym "Σ" "Sigma", gsym "σ" "sigma",
   gsym "Τ" "Tau", gsym "τ" "tau",
   gsym "Υ" "Upsilon", gsym "υ" "upsilon",
   gsym "Φ" "Phi", gsym "φ" "phi",
   gsym "Χ" "Chi", gsym "χ" "chi",
   gsym "Ψ" "Psi", gsym "ψ" "psi",
   gsym "Ω" "Omega", gsym "ω" "omega"]

/-- The single Latin letters (symbols.rs, LATIN_SYMBOLS), keyed by the
letter itself; HashMap order unspecified, insertion order used (the
tokenizer skips all of these anyway). -/
def LATIN_SYMBOLS : List Symbol :=
  "abcdefghijklmnopqrstuvwxyzABCDEFGHIJKLMNOPQRSTUVWXYZ".data.map
    (fun c => Symbol.fromString (String.mk [c]))

/-- Whether a string is a key of LATIN_SYMBOLS, i.e. a single ASCII
letter (symbols.rs: the map holds exactly the 52 one-letter strings). -/
def isLatinKey (s : String) : Bool :=
  match s.data with
  | [c] => c.isAlpha
  | _ => false

/-- SpecialFunction::square (symbols.rs). -/
def sfSquare (name : String) : Symbol :=
  ⟨name ++ "²", name ++ "^2", "\\" ++ name ++ "^2", []⟩

/-- SpecialFunction::inv (symbols.rs). -/
def sfInv (name : String) : Symbol :=
  ⟨name ++ "⁻¹", name ++ "^-1", "\\" ++ name ++ "^\x7b-1\x7d", []⟩

/-- `From<SpecialFunction> for Symbol` (symbols.rs). -/
def sfBase (name : String) : Symbol := ⟨name, name, "\\" ++ name, []⟩

/-- The special-function names (symbols.rs, SPECIAL_FUNCS), in source
order. -/
def SPECIAL_FUNC_NAMES : List String :=
  ["exp", "log", "ln", "lg",
   "sin", "cos", "tan", "sec", "csc", "cot",
   "arcsin", "arccos", "arctan",
   "sinh", "cosh", "tanh", "coth",
   "max", "min",
   "Pr",
   "gcd",
   "det", "dim", "ker",
   "inf", "sup"]

/-- Lexicographic strict order on character lists by code point.  Rust
orders `String` keys by their UTF-8 bytes; on the pure-ASCII keys used in
SPECIAL_FUNCS the two orders coincide. -/
def strLt : List Char → List Char → Bool
| [], [] => false
| [], _ :: _ => true
| _ :: _, [] => false
| c :: cs, d :: ds =>
  if c.toNat < d.toNat then true
  else if d.toNat < c.toNat then false
  else strLt cs ds

/-- Insert a keyed entry into a key-sorted association list (models
BTreeMap insertion; all keys here are distinct). -/
def insertSorted (p : String × Symbol) : List (String × Symbol) → List (String × Symbol)
| [] => [p]
| q :: qs => if strLt p.1.data q.1.data then p :: q :: qs else q :: insertSorted p qs

/-- The special-function symbol table (symbols.rs, SPECIAL_FUNCS): for each
name the `name^2`, `name^-1` and plain entries, held in a BTreeMap and
therefore iterated in ascending key order. -/
def SPECIAL_FUNCS : List (String × Symbol) :=
  (SPECIAL_FUNC_NAMES.foldl
    (fun acc n =>
      acc ++ [(n ++ "^2", sfSquare n), (n ++ "^-1", sfInv n), (n, sfBase n)])
    []).foldl (fun acc p => insertSorted p acc) []

/-- The ≤ symbol (symbols.rs, LE). -/
def LE : Symbol := ⟨"≤", "<=", "\\le", [" le"]⟩

/-- The ≥ symbol (symbols.rs, GE). -/
def GE : Symbol := ⟨"≥", ">=", "\\ge", [" ge"]⟩

/-- The ≠ symbol (symbols.rs, NEQ). -/
def NEQ : Symbol := ⟨"≠", "!=", "\\neq", ["=/=", "/=", " neq"]⟩

/-- The + symbol (symbols.rs, PLUS). -/
def PLUS : Symbol := ⟨"+", "+", "+", ["plus"]⟩

/-- The - symbol (symbols.rs, MINUS); note the source puts "-" as the
Unicode form and the U+2212 minus sign as the ASCII form. -/
def MINUS : Symbol := ⟨"-", "−", "-", ["minus"]⟩

/-- The ± symbol (symbols.rs, PM). -/
def PM : Symbol := ⟨"±", "+/-", "\\pm", ["+-", " pm"]⟩

/-- The exponentiation symbol (symbols.rs, POWER). -/
def POWER : Symbol := ⟨"^", "^", "\\^\x7b\x7d", []⟩

/-- The division symbol (symbols.rs, DIV). -/
def DIV : Symbol := ⟨"/", "/", "/", []⟩

/-- The ∞ symbol (symbols.rs, INF). -/
def INF : Symbol := ⟨"∞", " inf", "\\infty", ["infinity", "oo"]⟩

/-- The ∈ symbol (symbols.rs, ELEM). -/
def ELEM : Symbol := ⟨"∈", " in", "\\in", [" elem"]⟩

/-- The ∼ symbol (symbols.rs, SYM). -/
def SYM : Symbol := ⟨"∼", "~", "\\sym", []⟩

/-- The ≅ symbol (symbols.rs, APPROX). -/
def APPROX : Symbol := ⟨"≅", "~=", "\\approx", []⟩

/-- The multiplication symbol (symbols.rs, MULT).  The Rust literal
"\times" contains the escape `\t`, so the third alternate spelling starts
with a tab character, reproduced here with `\x09`. -/
def MULT : Symbol := ⟨"·", "*", "\\cdot", [" times", "\x09imes", "×"]⟩

/-- The ° symbol (symbols.rs, DEGREE). -/
def DEGREE : Symbol := ⟨"°", "o", "^\x7b\\circ\x7d", [" deg", " degrees"]⟩

/-- The left parenthesis symbol (symbols.rs, LEFT_PAR). -/
def LEFT_PAR : Symbol := ⟨"(", "(", "\\left(", []⟩

/-- The right parenthesis symbol (symbols.rs, RIGHT_PAR). -/
def RIGHT_PAR : Symbol := ⟨")", ")", "\\right)", []⟩

/-- The left bracket symbol (symbols.rs, LEFT_BRACKET). -/
def LEFT_BRACKET : Symbol := ⟨"[", "[", "\\left[", []⟩

/-- The right bracket symbol (symbols.rs, RIGHT_BRACKET). -/
def RIGHT_BRACKET : Symbol := ⟨"]", "]", "\\right]", []⟩

/-- The comma symbol (symbols.rs, COMMA = Symbol::from(",")). -/
def COMMA : Symbol := Symbol.fromString ","

/-- The miscellaneous symbols, in source order (symbols.rs, MISC). -/
def MISC : List Symbol :=
  [LE, GE, NEQ, PM, INF, ELEM, SYM, APPROX, MULT, DEGREE]

/-- Every predefined symbol, in the priority order the tokenizer scans:
Greek, Latin, special functions (ascending key order), miscellaneous
(symbols.rs, ALL_SYMBOLS). -/
def ALL_SYMBOLS : List Symbol :=
  GREEK_SYMBOLS ++ LATIN_SYMBOLS ++ SPECIAL_FUNCS.map (fun p => p.2) ++ MISC

end symbols

namespace delimiter

/-- delimiter.rs, LPAR. -/
def LPAR : Delimiter := ⟨DelimDir.Left, DelimKind.Paren⟩

/-- delimiter.rs, RPAR. -/
def RPAR : Delimiter := ⟨DelimDir.Right, DelimKind.Paren⟩

/-- delimiter.rs, LBRACKET. -/
def LBRACKET : Delimiter := ⟨DelimDir.Left, DelimKind.Bracket⟩

/-- delimiter.rs, RBRACKET. -/
def RBRACKET : Delimiter := ⟨DelimDir.Right, DelimKind.Bracket⟩

/-- delimiter.rs, DELIMS. -/
def DELIMS : List Delimiter := [LPAR, RPAR, LBRACKET, RBRACKET]

end delimiter

/-- Delimiter::get_symbol (delimiter.rs). -/
def Delimiter.get_symbol (d : Delimiter) : Symbol :=
  match d.dir, d.kind with
  | DelimDir.Left, DelimKind.Paren => symbols.LEFT_PAR
  | DelimDir.Left, DelimKind.Bracket => symbols.LEFT_BRACKET
  | DelimDir.Right, DelimKind.Paren => symbols.RIGHT_PAR
  | DelimDir.Right, DelimKind.Bracket => symbols.RIGHT_BRACKET

namespace operators

/-- operators.rs, UNARY_PLUS. -/
def UNARY_PLUS : Op := ⟨symbols.PLUS, none, some 1⟩

/-- operators.rs, UNARY_MINUS. -/
def UNARY_MINUS : Op := ⟨symbols.MINUS, none, some 1⟩

/-- operators.rs, UNARY_PM. -/
def UNARY_PM : Op := ⟨symbols.PM, none, some 1⟩

/-- operators.rs, POWER. -/
def POWER : Op := ⟨symbols.POWER, some 4, some 3⟩

/-- operators.rs, MULT. -/
def MULT : Op := ⟨symbols.MULT, some 6, some 5⟩

/-- operators.rs, DIV. -/
def DIV : Op := ⟨symbols.DIV, some 6, some 5⟩

/-- operators.rs, ADD. -/
def ADD : Op := ⟨symbols.PLUS, some 7, some 8⟩

/-- operators.rs, SUB. -/
def SUB : Op := ⟨symbols.MINUS, some 7, some 8⟩

/-- operators.rs, PM. -/
def PM : Op := ⟨symbols.PM, some 7, some 8⟩

/-- operators.rs, COMMA. -/
def COMMA : Op := ⟨symbols.COMMA, some 10, some 11⟩

/-- operators.rs, UNARY_OPS. -/
def UNARY_OPS : List Op := [UNARY_PLUS, UNARY_MINUS, UNARY_PM]

/-- operators.rs, BINARY_OPS. -/
def BINARY_OPS : List Op := [POWER, MULT, DIV, ADD, SUB, PM, COMMA]

end operators

/-- Modelled from the spec: `Symbol::match_front` is called throughout the
tokenizer and by `Op::match_front` (operators.rs: "Given a string, returns
a matched prefix of that string if the prefix matches one of the
operator's representations and None otherwise"), but its definition is not
among the provided sources.  Following the spec's "lookup by any accepted
spelling" with explicit first-match-wins priority, and the analogous
in-repo `parse_symbol_from_list` (parser.rs) which tries `reprs()` in
order, it returns the first representation that is a prefix of the
input. -/
def Symbol.match_front (sym : Symbol) (input : List Char) : Option (List Char) :=
  (sym.reprs.map (fun r => r.data)).find? (fun r => r.isPrefixOf input)

/-- Op::match_front (operators.rs): delegates to the symbol. -/
def Op.match_front (op : Op) (input : List Char) : Option (List Char) :=
  op.sym.match_front input

/-- Rust's `char::is_whitespace`: membership in the Unicode White_Space
set, listed explicitly by code point. -/
def isWhitespace (c : Char) : Bool :=
  (0x09 ≤ c.toNat && c.toNat ≤ 0x0D) || c.toNat == 0x20 || c.toNat == 0x85 ||
  c.toNat == 0xA0 || c.toNat == 0x1680 ||
  (0x2000 ≤ c.toNat && c.toNat ≤ 0x200A) ||
  c.toNat == 0x2028 || c.toNat == 0x2029 || c.toNat == 0x202F ||
  c.toNat == 0x205F || c.toNat == 0x3000

/-- The UTF-8 byte length of a character.  In the tokenizer the Rust code
advances with the byte slice `&rest[1..]`, which panics unless the first
character occupies exactly one byte. -/
def utf8Len (c : Char) : Nat :=
  if c.toNat < 0x80 then 1
  else if c.toNat < 0x800 then 2
  else if c.toNat < 0x10000 then 3
  else 4

/-- The context-dependent operator candidate set (parsers/token.rs,
tokenize, the `curr_ops` match): binary operators after an operand or a
right delimiter; otherwise unary operators, but only when no unknown
buffer is being built. -/
def currOps (last : Option Token) (curr_unknown : List Char) : List Op :=
  match last with
  | some (Token.Operand _) => operators.BINARY_OPS
  | some (Token.Delim ⟨DelimDir.Right, _⟩) => operators.BINARY_OPS
  | _ =>
    if curr_unknown.isEmpty then operators.UNARY_OPS else operators.BINARY_OPS

/-- Push the pending unknown buffer as an Operand token if it is nonempty
(parsers/token.rs, the repeated "push previous unknown token onto list"
block).  The token list is held most-recent-first. -/
def flushUnknown (tokens_rev : List Token) (curr_unknown : List Char) : List Token :=
  if curr_unknown.isEmpty then tokens_rev
  else Token.Operand (Symbol.fromString (String.mk curr_unknown)) :: tokens_rev

/-- First element of a list on which `f` yields a match, together with the
match (models the Rust `for ... if let Some(repr) = ... { ... }` scans). -/
def firstMatch {α : Type} (f : α → Option (List Char)) : List α → Option (α × List Char)
| [] => none
| x :: xs =>
  match f x with
  | some r => some (x, r)
  | none => firstMatch f xs

/-- The outcome of one iteration of the tokenizer's scanning loop: either
updated state (remaining input, emitted tokens most-recent-first, unknown
buffer) or a Rust panic. -/
inductive StepRes where
| emit (rest : List Char) (tokens_rev : List Token) (curr_unknown : List Char)
| panicked

/-- One pass through the match cascade of the tokenizer loop body, after
the whitespace handling (parsers/token.rs, tokenize): delimiters first,
then the context-dependent operator candidates, then special-function
names, then non-Latin catalog symbols; a still-unmatched character is
appended to the unknown buffer.  The final arm models the two panics of
the source: `rest.chars().next().unwrap()` on empty input, and the byte
slice `&rest[1..]` on a multi-byte character. -/
def tokenizeStep (rest : List Char) (tokens_rev : List Token) (curr_unknown : List Char) : StepRes :=
  match firstMatch (fun d => (Delimiter.get_symbol d).match_front rest) delimiter.DELIMS with
  | some (d, matched) =>
    StepRes.emit (rest.drop matched.length) (Token.Delim d :: flushUnknown tokens_rev curr_unknown) []
  | none =>
    match firstMatch (fun op => op.match_front rest) (currOps tokens_rev.head? curr_unknown) with
    | some (op, matched) =>
      StepRes.emit (rest.drop matched.length) (Token.Operator op :: flushUnknown tokens_rev curr_unknown) []
    | none =>
      match firstMatch (fun p => Symbol.match_front p.2 rest) symbols.SPECIAL_FUNCS with
      | some (p, matched) =>
        StepRes.emit (rest.drop matched.length) (Token.Function p.2 :: flushUnknown tokens_rev curr_unknown) []
      | none =>
        match firstMatch
            (fun s => if symbols.isLatinKey s.ascii_repr then none else s.match_front rest)
            symbols.ALL_SYMBOLS with
        | some (s, matched) =>
          StepRes.emit (rest.drop matched.length) (Token.Operand s :: flushUnknown tokens_rev curr_unknown) []
        | none =>
          match rest with
          | [] => StepRes.panicked
          | c :: cs =>
            if utf8Len c == 1 then StepRes.emit cs tokens_rev (curr_unknown ++ [c])
            else StepRes.panicked

/-- The tokenizer's scanning loop (parsers/token.rs, tokenize, the
`'parse: while !rest.is_empty()` loop).  Each iteration first handles one
leading whitespace character (flushing the unknown buffer and advancing by
one byte — a panic if the whitespace is multi-byte) and then falls through
to the match cascade, exactly as in the source, which does not restart the
loop after consuming whitespace.  The fuel argument only bounds the
recursion; every iteration of the source loop consumes at least one
character (no spelling in the embedded tables is empty), so
`input.length + 1` iterations always suffice and the fuel-exhaustion
branch is unreachable from `tokenize`. -/
def tokenizeLoop : Nat → List Char → List Token → List Char → RustRes (List Token)
| 0, _, _, _ => RustRes.panicked
| Nat.succ fuel, rest, tokens_rev, curr_unknown =>
  match rest with
  | [] => RustRes.ok ((Token.End :: flushUnknown tokens_rev curr_unknown).reverse)
  | c :: cs =>
    let step :=
      if isWhitespace c then
        if utf8Len c == 1 then tokenizeStep cs (flushUnknown tokens_rev curr_unknown) []
        else StepRes.panicked
      else tokenizeStep (c :: cs) tokens_rev curr_unknown
    match step with
    | StepRes.emit rest2 toks2 curr2 => tokenizeLoop fuel rest2 toks2 curr2
    | StepRes.panicked => RustRes.panicked

/-- Tokenizer::tokenize (parsers/token.rs): scan the input, then flush any
pending unknown buffer and append the End token.  The debug `println!`
output of the source has no bearing on the returned value. -/
def tokenize (input : String) : RustRes (List Token) :=
  tokenizeLoop (input.data.length + 1) input.data [] []

/-- The binding decision between an incoming operator's left precedence
and a stacked operator's right precedence (parsers/ascii.rs,
parse_into_postfix, the `does_bind` match): with both present, bind when
the stacked right precedence is strictly smaller; a stacked operator with
no right precedence always binds; an incoming operator with no left
precedence never binds a stacked right precedence; both absent is a
`MissingOperands` error (an early `return` in the source). -/
def does_bind (l_prec1 : Option Nat) (r_prec : Option Nat) : RustRes Bool :=
  match l_prec1, r_prec with
  | some lp, some rp => RustRes.ok (decide (rp < lp))
  | some _, none => RustRes.ok true
  | none, some _ => RustRes.ok false
  | none, none => RustRes.perr ParseError.MissingOperands

/-- The operator-token while loop of parse_into_postfix
(parsers/ascii.rs): pop stacked operators that bind first and stacked
functions unconditionally to the output, stop at a left delimiter, and
panic on any other stacked token (the source's `panic!`).  The operator
stack is head-first; the output queue is appended at the back.  Returns
the remaining stack and the extended output. -/
def popOps (l_prec1 : Option Nat) : List Token → List Token → RustRes (List Token × List Token)
| [], output => RustRes.ok ([], output)
| op2 :: rest, output =>
  match op2 with
  | Token.Delim ⟨DelimDir.Left, _⟩ => RustRes.ok (op2 :: rest, output)
  | Token.Operator ⟨_, _, r_prec⟩ =>
    (match does_bind l_prec1 r_prec with
     | RustRes.ok true => popOps l_prec1 rest (output ++ [op2])
     | RustRes.ok false => RustRes.ok (op2 :: rest, output)
     | RustRes.perr e => RustRes.perr e
     | RustRes.panicked => RustRes.panicked)
  | Token.Function _ => popOps l_prec1 rest (output ++ [op2])
  | _ => RustRes.panicked

/-- The closing-delimiter while loop of parse_into_postfix
(parsers/ascii.rs): pop stacked tokens to the output; at a left delimiter
of the same kind, discard it and pop a function sitting directly beneath
it to the output; at a left delimiter of a different kind, fail with
`MismatchedParentheses`.  Faithful to the source, the loop does NOT stop
after discarding the matching opener (there is no `break` in that arm): it
keeps scanning until the stack is empty or a mismatched opener is hit. -/
def popUntil (lkind : DelimKind) : List Token → List Token → RustRes (List Token × List Token)
| [], output => RustRes.ok ([], output)
| Token.Delim ⟨DelimDir.Left, kind⟩ :: Token.Function f :: rest2, output =>
  if kind = lkind then popUntil lkind rest2 (output ++ [Token.Function f])
  else RustRes.perr ParseError.MismatchedParentheses
| Token.Delim ⟨DelimDir.Left, kind⟩ :: rest, output =>
  if kind = lkind then popUntil lkind rest output
  else RustRes.perr ParseError.MismatchedParentheses
| op2 :: rest, output => popUntil lkind rest (output ++ [op2])

/-- The token-dispatch loop of parse_into_postfix (parsers/ascii.rs):
operands to the output; operators via `popOps` then pushed; functions and
left delimiters pushed; right delimiters via `popUntil`; End breaks.  At
the end the remaining operator stack is drained (top first) onto the
output. -/
def parse_into_postfix_aux : List Token → List Token → List Token → RustRes (List Token)
| [], opstack, output => RustRes.ok (output ++ opstack)
| token :: restIn, opstack, output =>
  match token with
  | Token.Operand _ => parse_into_postfix_aux restIn opstack (output ++ [token])
  | Token.Operator op =>
    (match popOps op.l_prec opstack output with
     | RustRes.ok (ops2, out2) => parse_into_postfix_aux restIn (Token.Operator op :: ops2) out2
     | RustRes.perr e => RustRes.perr e
     | RustRes.panicked => RustRes.panicked)
  | Token.Function _ => parse_into_postfix_aux restIn (token :: opstack) output
  | Token.Delim ⟨DelimDir.Left, _⟩ => parse_into_postfix_aux restIn (token :: opstack) output
  | Token.Delim ⟨DelimDir.Right, lkind⟩ =>
    (match popUntil lkind opstack output with
     | RustRes.ok (ops2, out2) => parse_into_postfix_aux restIn ops2 out2
     | RustRes.perr e => RustRes.perr e
     | RustRes.panicked => RustRes.panicked)
  | Token.End => RustRes.ok (output ++ opstack)

/-- parse_into_postfix (parsers/ascii.rs): the shunting-yard pass from a
token list to a postfix-ordered token list. -/
def parse_into_postfix (inputs : List Token) : RustRes (List Token) :=
  parse_into_postfix_aux inputs [] []

/-- comma_sep_to_list (parsers/ascii.rs): unpack all outer comma operators
of a tree into a flat argument list.  The source compares the generic
node's symbol with `symbols::COMMA`; in the operator-carrying form that is
the operator's `sym` field. -/
def comma_sep_to_list : AST → List AST
| AST.BinaryExpr (BinaryOp.Generic ⟨op, fx⟩) arg1 arg2 =>
  if op.sym = symbols.COMMA then
    comma_sep_to_list arg1 ++ comma_sep_to_list arg2
  else [AST.BinaryExpr (BinaryOp.Generic ⟨op, fx⟩) arg1 arg2]
| tree => [tree]

/-- The token loop of parse_into_tree (parsers/ascii.rs), over an
expression stack held head-first: operands push symbol leaves; operators
in UNARY_OPS pop one operand, other operators pop two (the first pop is
the right argument) and build Power/Frac for the designated operators or a
generic infix node otherwise; functions pop one operand and flatten commas
into an argument list; a delimiter token is `MismatchedParentheses`; End
breaks.  Returns the final expression stack. -/
def parse_into_tree_aux : List Token → List AST → RustRes (List AST)
| [], exprs => RustRes.ok exprs
| token :: rest, exprs =>
  match token with
  | Token.Operand sym => parse_into_tree_aux rest (AST.Sym sym :: exprs)
  | Token.Operator op =>
    if operators.UNARY_OPS.contains op then
      (match exprs with
       | tree :: exprs2 =>
         parse_into_tree_aux rest (AST.UnaryExpr (UnaryOp.Generic op.sym) tree :: exprs2)
       | [] => RustRes.perr ParseError.MissingOperands)
    else
      (match exprs with
       | arg2 :: arg1 :: exprs2 =>
         let new_expr :=
           if op = operators.POWER then AST.BinaryExpr BinaryOp.Power arg1 arg2
           else if op = operators.DIV then AST.BinaryExpr BinaryOp.Frac arg1 arg2
           else AST.BinaryExpr (BinaryOp.Generic ⟨op, Fixity.Inf⟩) arg1 arg2
         parse_into_tree_aux rest (new_expr :: exprs2)
       | _ => RustRes.perr ParseError.MissingOperands)
  | Token.Function func =>
    (match exprs with
     | tree :: exprs2 =>
       parse_into_tree_aux rest (AST.Function func (comma_sep_to_list tree) :: exprs2)
     | [] => RustRes.perr ParseError.MissingOperands)
  | Token.Delim _ => RustRes.perr ParseError.MismatchedParentheses
  | Token.End => RustRes.ok exprs

/-- parse_into_tree (parsers/ascii.rs): run the token loop, then fold the
remaining expressions (oldest first, i.e. the reversed stack) into nested
Concat nodes; zero remaining expressions is `EmptyExpr`. -/
def parse_into_tree (tokens : List Token) : RustRes AST :=
  match parse_into_tree_aux tokens [] with
  | RustRes.ok exprs =>
    (match exprs.reverse with
     | [] => RustRes.perr ParseError.EmptyExpr
     | e :: es =>
       RustRes.ok (es.foldl (fun acc nw => AST.BinaryExpr BinaryOp.Concat acc nw) e))
  | RustRes.perr e => RustRes.perr e
  | RustRes.panicked => RustRes.panicked

/-- AsciiParser::parse (parsers/ascii.rs): tokenize, convert to postfix,
build the tree.  The `dbg!` calls of the source only print (their
`unwrap_or` cannot panic) and do not affect the result. -/
def parse (input : String) : RustRes AST :=
  match tokenize input with
  | RustRes.ok tokens =>
    (match parse_into_postfix tokens with
     | RustRes.ok post => parse_into_tree post
     | RustRes.perr e => RustRes.perr e
     | RustRes.panicked => RustRes.panicked)
  | RustRes.perr e => RustRes.perr e
  | RustRes.panicked => RustRes.panicked

/-- prec_gt (formatters/precedence.rs): `prec1.map(|p| p >
prec2.unwrap_or_default()).unwrap_or(false)` — an absent first precedence
is never greater; an absent second precedence is the `u8` default 0. -/
def prec_gt (prec1 prec2 : Option Nat) : Bool :=
  (prec1.map (fun p => decide (p > prec2.getD 0))).getD false

/-- The generic-operator case of need_parens (formatters/precedence.rs,
the `BinaryOp::Generic` arm, both child matches): symbol leaves, number
literals, unary expressions and function calls never need parentheses; a
binary child compares its side-facing precedence against the parent's via
`prec_gt` (Power and Log children stand for the POWER operator, Frac
children for DIV, Concat children never need parentheses). -/
def need_parens_generic (l_prec r_prec : Option Nat) (lchild rchild : AST) : Bool × Bool :=
  (match lchild with
   | AST.Sym _ => false
   | AST.Number _ => false
   | AST.BinaryExpr bop _ _ =>
     (match bop with
      | BinaryOp.Generic ⟨l_op, _⟩ => prec_gt l_op.r_prec l_prec
      | BinaryOp.Power => prec_gt operators.POWER.r_prec l_prec
      | BinaryOp.Frac => prec_gt operators.DIV.r_prec l_prec
      | BinaryOp.Log => prec_gt operators.POWER.r_prec l_prec
      | BinaryOp.Concat => false)
   | AST.UnaryExpr _ _ => false
   | AST.Function _ _ => false,
   match rchild with
   | AST.Sym _ => false
   | AST.Number _ => false
   | AST.BinaryExpr bop _ _ =>
     (match bop with
      | BinaryOp.Generic ⟨l_op, _⟩ => prec_gt l_op.l_prec r_prec
      | BinaryOp.Power => prec_gt operators.POWER.l_prec r_prec
      | BinaryOp.Frac => prec_gt operators.DIV.l_prec r_prec
      | BinaryOp.Log => prec_gt operators.POWER.l_prec r_prec
      | BinaryOp.Concat => false)
   | AST.UnaryExpr _ _ => false
   | AST.Function _ _ => false)

/-- need_parens (formatters/precedence.rs): whether the left and right
children need parentheses.  The source's Power, Frac and Log arms
recursively call need_parens with `Generic(SymbolBinaryOp { op: POWER/DIV,
fixity: Infix })`; that recursion lands immediately in the generic arm, so
the embedding calls the generic-case helper with the same operator's
precedences directly (one unfolding of the source's recursion).  Concat
has its own table: binary children always need parentheses, unary
children only on the right, everything else never. -/
def need_parens (bin_op : BinaryOp) (lchild rchild : AST) : Bool × Bool :=
  match bin_op with
  | BinaryOp.Generic ⟨⟨_, l_prec, r_prec⟩, _⟩ => need_parens_generic l_prec r_prec lchild rchild
  | BinaryOp.Power => need_parens_generic operators.POWER.l_prec operators.POWER.r_prec lchild rchild
  | BinaryOp.Frac => need_parens_generic operators.DIV.l_prec operators.DIV.r_prec lchild rchild
  | BinaryOp.Log => need_parens_generic operators.POWER.l_prec operators.POWER.r_prec lchild rchild
  | BinaryOp.Concat =>
    (match lchild with
     | AST.Sym _ => false
     | AST.Number _ => false
     | AST.BinaryExpr _ _ _ => true
     | AST.UnaryExpr _ _ => false
     | AST.Function _ _ => false,
     match rchild with
     | AST.Sym _ => false
     | AST.Number _ => false
     | AST.BinaryExpr _ _ _ => true
     | AST.UnaryExpr _ _ => true
     | AST.Function _ _ => false)

mutual

/-- LatexFormatter (formatters/latex.rs) together with the dispatching
Formatter::format (formatter.rs): symbols render their LaTeX
representation, numbers verbatim; a binary node asks need_parens and
wraps each child per its flag, except that Power renders its right child
and Frac both children unwrapped and Log its left child unwrapped (the
source's commented special cases); unary is "sym arg"; a function call is
the name with \left( arguments \right).  Literal braces of the source's
format strings are written with \x7b and \x7d escapes. -/
def latexFormat : AST → String
| AST.Sym sym => sym.latex_repr
| AST.Number dec => dec
| AST.BinaryExpr bop arg1 arg2 =>
  let pair := need_parens bop arg1 arg2
  let left_no_paren := latexFormat arg1
  let left := if pair.1 then "(" ++ left_no_paren ++ ")" else left_no_paren
  let right_no_paren := latexFormat arg2
  let right := if pair.2 then "(" ++ right_no_paren ++ ")" else right_no_paren
  (match bop with
   | BinaryOp.Generic ⟨op2, fx⟩ =>
     let symbol := op2.sym.latex_repr
     (match fx with
      | Fixity.Pre => symbol ++ " " ++ left ++ " " ++ right
      | Fixity.Inf => left ++ " " ++ symbol ++ " " ++ right
      | Fixity.Post => left ++ " " ++ right ++ " " ++ symbol)
   | BinaryOp.Power => left ++ "^\x7b" ++ right_no_paren ++ "\x7d"
   | BinaryOp.Frac => "\\frac\x7b " ++ left_no_paren ++ " \x7d\x7b " ++ right_no_paren ++ " \x7d"
   | BinaryOp.Log => "\\log_\x7b " ++ left_no_paren ++ " \x7d \\left( " ++ right ++ " \\right)"
   | BinaryOp.Concat => left ++ right)
| AST.UnaryExpr (UnaryOp.Generic sym) arg => sym.latex_repr ++ " " ++ latexFormat arg
| AST.Function name args =>
  name.latex_repr ++ "\\left(" ++ String.intercalate ", " (latexFormatList args) ++ "\\right)"

/-- latexFormat mapped over an argument list (the `args.iter().map`
of format_function). -/
def latexFormatList : List AST → List String
| [] => []
| a :: as => latexFormat a :: latexFormatList as

end

mutual

/-- UnicodeFormatter (formatters/unicode.rs) together with
Formatter::format (formatter.rs): symbols render their Unicode
representation, numbers verbatim; a generic binary node renders
"(left sym right)" by fixity, Power "left^right", Frac "left / right",
Log "log_left right", Concat juxtaposition; unary is "(sym arg)"; a
function call is "name(args)".  This formatter never consults
need_parens; its generic SymbolBinaryOp destructuring reads the
operator's symbol (`op.sym` in the operator-carrying form). -/
def unicodeFormat : AST → String
| AST.Sym sym => sym.unicode_repr
| AST.Number dec => dec
| AST.BinaryExpr bop arg1 arg2 =>
  let left := unicodeFormat arg1
  let right := unicodeFormat arg2
  (match bop with
   | BinaryOp.Generic ⟨op2, fx⟩ =>
     let sym := op2.sym.unicode_repr
     (match fx with
      | Fixity.Pre => "(" ++ sym ++ " " ++ left ++ " " ++ right ++ ")"
      | Fixity.Inf => "(" ++ left ++ " " ++ sym ++ " " ++ right ++ ")"
      | Fixity.Post => "(" ++ left ++ " " ++ right ++ " " ++ sym ++ ")")
   | BinaryOp.Power => left ++ "^" ++ right
   | BinaryOp.Frac => left ++ " / " ++ right
   | BinaryOp.Log => "log_" ++ left ++ " " ++ right
   | BinaryOp.Concat => left ++ right)
| AST.UnaryExpr (UnaryOp.Generic sym) arg => "(" ++ sym.unicode_repr ++ " " ++ unicodeFormat arg ++ ")"
| AST.Function name args =>
  name.unicode_repr ++ "(" ++ String.intercalate ", " (unicodeFormatList args) ++ ")"

/-- unicodeFormat mapped over an argument list. -/
def unicodeFormatList : List AST → List String
| [] => []
| a :: as => unicodeFormat a :: unicodeFormatList as

end

/-- Abbreviation for the symbol leaf the tree builder makes out of an
operand token (ascii.rs turns every Operand into `AST::Sym`, numbers
included). -/
def symLeaf (s : String) : AST := AST.Sym (Symbol.fromString s)

/-- Whether a token is an operand. -/
def isOperandTok : Token → Bool
| Token.Operand _ => true
| _ => false

/-- Whether a token is a closing delimiter. -/
def isClosingDelimTok : Token → Bool
| Token.Delim ⟨DelimDir.Right, _⟩ => true
| _ => false

/-- The precedence the parenthesization engine reads off a left child at
its junction with the parent: the child's right-facing precedence if the
child is a binary expression (POWER's pair standing in for Power and Log
children, DIV's for Frac, none for Concat), and nothing otherwise. -/
def rightPrecOfChild : AST → Option Nat
| AST.BinaryExpr bop _ _ =>
  (match bop with
   | BinaryOp.Generic ⟨o, _⟩ => o.r_prec
   | BinaryOp.Power => operators.POWER.r_prec
   | BinaryOp.Frac => operators.DIV.r_prec
   | BinaryOp.Log => operators.POWER.r_prec
   | BinaryOp.Concat => none)
| _ => none

/-- The precedence the parenthesization engine reads off a right child at
its junction with the parent: the child's left-facing precedence if the
child is a binary expression, as in `rightPrecOfChild`. -/
def leftPrecOfChild : AST → Option Nat
| AST.BinaryExpr bop _ _ =>
  (match bop with
   | BinaryOp.Generic ⟨o, _⟩ => o.l_prec
   | BinaryOp.Power => operators.POWER.l_prec
   | BinaryOp.Frac => operators.DIV.l_prec
   | BinaryOp.Log => operators.POWER.l_prec
   | BinaryOp.Concat => none)
| _ => none

/-- The comparison need_parens actually performs at a junction: the child
needs parentheses exactly when it has a relevant precedence and that
precedence is numerically greater (looser) than the parent's, an absent
parent precedence being treated as 0 (the Rust `u8` default), i.e. as
binding tightest. -/
def childNeeds (childPrec parentPrec : Option Nat) : Bool :=
  match childPrec with
  | some p => decide (p > parentPrec.getD 0)
  | none => false

/-- Claim C1 (code evaluation at the failing input): when
parse_into_postfix handles the closing parenthesis of "2 + (3) ^ 4", it
discards the matching opener and then — because the source loop has no
`break` in that arm — keeps draining the operator stack, popping the
pending `+` to the output.  The postfix comes out as `2 3 + 4 ^` and the
parse as `(2 + 3) ^ 4`, where the claim's description (remainder of the
stack left unchanged) would give `2 3 4 ^ +`, i.e. `2 + (3 ^ 4)`. -/
theorem c1_closing_delimiter_drains_stack :
  parse_into_postfix
      [Token.Operand (Symbol.fromString "2"), Token.Operator operators.ADD,
       Token.Delim ⟨DelimDir.Left, DelimKind.Paren⟩, Token.Operand (Symbol.fromString "3"),
       Token.Delim ⟨DelimDir.Right, DelimKind.Paren⟩, Token.Operator operators.POWER,
       Token.Operand (Symbol.fromString "4"), Token.End]
    = RustRes.ok
      [Token.Operand (Symbol.fromString "2"), Token.Operand (Symbol.fromString "3"),
       Token.Operator operators.ADD, Token.Operand (Symbol.fromString "4"),
       Token.Operator operators.POWER]
  ∧ parse "2 + (3) ^ 4"
    = RustRes.ok (AST.BinaryExpr BinaryOp.Power
        (AST.BinaryExpr (BinaryOp.Generic ⟨operators.ADD, Fixity.Inf⟩)
          (symLeaf "2") (symLeaf "3"))
        (symLeaf "4")) :=
  ⟨rfl, rfl⟩

/-- Claim C2 (counterexample): the claim states that whenever either side
of the precedence comparison is absent the child needs no parentheses;
but for a generic parent operator with no left precedence (here the
unary-plus operator used as a binary node) and a left child whose right
precedence is 8, need_parens marks the left child as needing parentheses,
because the absent parent precedence is replaced by the `u8` default 0. -/
theorem c2_counterexample :
  need_parens (BinaryOp.Generic ⟨operators.UNARY_PLUS, Fixity.Inf⟩)
      (AST.BinaryExpr (BinaryOp.Generic ⟨operators.ADD, Fixity.Inf⟩)
        (symLeaf "a") (symLeaf "b"))
      (symLeaf "c")
    = (true, false) := rfl

/-- Claim C2 (amended): for a generic binary parent, the left flag is set
exactly when the left child (necessarily a binary expression) carries a
right-facing precedence that is numerically greater than the parent's
left precedence, and symmetrically for the right flag; an absent child
precedence yields false, while an absent parent precedence is treated as
the value 0 rather than as "never needs parentheses". -/
theorem c2_amended_generic_paren_rule :
  (∀ (op : Op) (fx : Fixity) (l r : AST),
    (need_parens (BinaryOp.Generic ⟨op, fx⟩) l r).1 = childNeeds (rightPrecOfChild l) op.l_prec)
  ∧ (∀ (op : Op) (fx : Fixity) (l r : AST),
    (need_parens (BinaryOp.Generic ⟨op, fx⟩) l r).2 = childNeeds (leftPrecOfChild r) op.r_prec) := by
  constructor
  · intro op fx l r
    cases l with
    | BinaryExpr bop a b =>
      cases bop with
      | Generic sb =>
        obtain ⟨⟨sym, lp, rp⟩, f2⟩ := sb
        cases rp <;> rfl
      | Power => rfl
      | Frac => rfl
      | Log => rfl
      | Concat => rfl
    | Sym s => rfl
    | Number n => rfl
    | UnaryExpr u a => rfl
    | Function f as => rfl
  · intro op fx l r
    cases r with
    | BinaryExpr bop a b =>
      cases bop with
      | Generic sb =>
        obtain ⟨⟨sym, lp, rp⟩, f2⟩ := sb
        cases lp <;> rfl
      | Power => rfl
      | Frac => rfl
      | Log => rfl
      | Concat => rfl
    | Sym s => rfl
    | Number n => rfl
    | UnaryExpr u a => rfl
    | Function f as => rfl

/-- Claim C3 (code evaluation at the failing inputs): `2 + 3 * 4` does
group as `2 + (3 * 4)`, but `2 ^ 3 ^ 4` parses LEFT-associatively as
`(2 ^ 3) ^ 4` (the claim, the spec, and the source's own comments in
operators.rs say `2 ^ (3 ^ 4)`), and `2 - 3 - 4` parses
RIGHT-associatively as `2 - (3 - 4)` (the claim says `(2 - 3) - 4`). -/
theorem c3_associativity_evaluations :
  parse "2 + 3 * 4"
    = RustRes.ok (AST.BinaryExpr (BinaryOp.Generic ⟨operators.ADD, Fixity.Inf⟩)
        (symLeaf "2")
        (AST.BinaryExpr (BinaryOp.Generic ⟨operators.MULT, Fixity.Inf⟩)
          (symLeaf "3") (symLeaf "4")))
  ∧ parse "2 ^ 3 ^ 4"
    = RustRes.ok (AST.BinaryExpr BinaryOp.Power
        (AST.BinaryExpr BinaryOp.Power (symLeaf "2") (symLeaf "3"))
        (symLeaf "4"))
  ∧ parse "2 - 3 - 4"
    = RustRes.ok (AST.BinaryExpr (BinaryOp.Generic ⟨operators.SUB, Fixity.Inf⟩)
        (symLeaf "2")
        (AST.BinaryExpr (BinaryOp.Generic ⟨operators.SUB, Fixity.Inf⟩)
          (symLeaf "3") (symLeaf "4"))) :=
  ⟨rfl, rfl, rfl⟩

/-- Claim C4 (counterexample): the claim says a stacked operator with no
right precedence is never popped when the incoming operator has a left
precedence — but the code pops it unconditionally (first two conjuncts: a
factorial-like operator `!` with precedences (some 2, none) is popped
past by the incoming `*`, where the claim would leave it on the stack
until the final drain, producing the other order); and when the incoming
operator ALSO has no left precedence the claim says "pop unconditionally"
— but the code fails with MissingOperands (third conjunct). -/
theorem c4_counterexample :
  parse_into_postfix
      [Token.Operand (Symbol.fromString "a"),
       Token.Operator ⟨Symbol.fromString "!", some 2, none⟩,
       Token.Operator operators.MULT,
       Token.Operand (Symbol.fromString "b"), Token.End]
    = RustRes.ok
      [Token.Operand (Symbol.fromString "a"),
       Token.Operator ⟨Symbol.fromString "!", some 2, none⟩,
       Token.Operand (Symbol.fromString "b"),
       Token.Operator operators.MULT]
  ∧ ([Token.Operand (Symbol.fromString "a"),
      Token.Operator ⟨Symbol.fromString "!", some 2, none⟩,
      Token.Operand (Symbol.fromString "b"),
      Token.Operator operators.MULT]
     ≠ [Token.Operand (Symbol.fromString "a"),
        Token.Operand (Symbol.fromString "b"),
        Token.Operator operators.MULT,
        Token.Operator ⟨Symbol.fromString "!", some 2, none⟩])
  ∧ parse_into_postfix
      [Token.Operand (Symbol.fromString "a"),
       Token.Operator ⟨Symbol.fromString "!", some 2, none⟩,
       Token.Operator operators.UNARY_MINUS, Token.End]
    = RustRes.perr ParseError.MissingOperands :=
  ⟨rfl, by decide, rfl⟩

/-- Claim C4 (amended): when incoming operator op1 meets stacked operator
op2, the code pops exactly while op2's right precedence is strictly less
than op1's left precedence when both exist; pops UNCONDITIONALLY when op1
has a left precedence and op2 has no right precedence; never pops when
op1 has no left precedence and op2 has one; and fails with
MissingOperands when both are absent.  The two Stage-A runs mirror the
source's own comment examples: `2 ! * 3` yields postfix `2 ! 3 *`, and
`2 + - 3` yields `2 3 - +`. -/
theorem c4_amended_pop_rule :
  (∀ lp rp : Nat, does_bind (some lp) (some rp) = RustRes.ok (decide (rp < lp)))
  ∧ (∀ lp : Nat, does_bind (some lp) none = RustRes.ok true)
  ∧ (∀ rp : Nat, does_bind none (some rp) = RustRes.ok false)
  ∧ does_bind none none = RustRes.perr ParseError.MissingOperands
  ∧ parse_into_postfix
      [Token.Operand (Symbol.fromString "2"),
       Token.Operator ⟨Symbol.fromString "!", some 2, none⟩,
       Token.Operator operators.MULT,
       Token.Operand (Symbol.fromString "3"), Token.End]
    = RustRes.ok
      [Token.Operand (Symbol.fromString "2"),
       Token.Operator ⟨Symbol.fromString "!", some 2, none⟩,
       Token.Operand (Symbol.fromString "3"),
       Token.Operator operators.MULT]
  ∧ parse_into_postfix
      [Token.Operand (Symbol.fromString "2"),
       Token.Operator operators.ADD,
       Token.Operator operators.UNARY_MINUS,
       Token.Operand (Symbol.fromString "3"), Token.End]
    = RustRes.ok
      [Token.Operand (Symbol.fromString "2"),
       Token.Operand (Symbol.fromString "3"),
       Token.Operator operators.UNARY_MINUS,
       Token.Operator operators.ADD] :=
  ⟨fun _ _ => rfl, fun _ => rfl, fun _ => rfl, rfl, rfl, rfl⟩

/-- Claim C5 (counterexample): need_parens does NOT return (false, false)
for every Frac node — with left child `a + b` it returns (true, false),
because the Frac case delegates to the generic division operator's
precedence rule (ADD's right precedence 8 is looser than DIV's left
precedence 6). -/
theorem c5_counterexample :
  need_parens BinaryOp.Frac
      (AST.BinaryExpr (BinaryOp.Generic ⟨operators.ADD, Fixity.Inf⟩)
        (symLeaf "a") (symLeaf "b"))
      (symLeaf "c")
    = (true, false) := rfl

/-- Claim C5 (amended): need_parens treats a Frac parent exactly like the
generic division operator (so a child can be marked as needing
parentheses); the "fraction never needs parentheses" behaviour lives in
the LaTeX renderer, whose Frac template renders both children from their
unparenthesized forms regardless of the flags. -/
theorem c5_amended_frac_rule :
  (∀ l r : AST,
    need_parens BinaryOp.Frac l r
      = need_parens (BinaryOp.Generic ⟨operators.DIV, Fixity.Inf⟩) l r)
  ∧ (∀ l r : AST,
    latexFormat (AST.BinaryExpr BinaryOp.Frac l r)
      = "\\frac\x7b " ++ latexFormat l ++ " \x7d\x7b " ++ latexFormat r ++ " \x7d") :=
  ⟨fun _ _ => rfl, fun l r => by simp [latexFormat]⟩

/-- Claim C6 (counterexample): for the tree `(a · b) + c` the
parenthesization engine reports that neither child needs wrapping, yet
the Unicode renderer outputs "((a · b) + c)", wrapping the left child
(and the node itself): it never consults need_parens, so "wraps a child
iff need_parens says so" fails for the Unicode format. -/
theorem c6_counterexample :
  need_parens (BinaryOp.Generic ⟨operators.ADD, Fixity.Inf⟩)
      (AST.BinaryExpr (BinaryOp.Generic ⟨operators.MULT, Fixity.Inf⟩)
        (symLeaf "a") (symLeaf "b"))
      (symLeaf "c")
    = (false, false)
  ∧ unicodeFormat
      (AST.BinaryExpr (BinaryOp.Generic ⟨operators.ADD, Fixity.Inf⟩)
        (AST.BinaryExpr (BinaryOp.Generic ⟨operators.MULT, Fixity.Inf⟩)
          (symLeaf "a") (symLeaf "b"))
        (symLeaf "c"))
    = "((a · b) + c)" :=
  ⟨rfl, rfl⟩

/-- Claim C6 (amended): only the LaTeX renderer's generic case follows
the shared engine — it wraps each child exactly per the need_parens
flags; the Unicode renderer ignores need_parens entirely, rendering both
children unwrapped and parenthesizing every generic binary node
unconditionally. -/
theorem c6_amended_renderer_rule :
  (∀ (op : Op) (fx : Fixity) (l r : AST),
    latexFormat (AST.BinaryExpr (BinaryOp.Generic ⟨op, fx⟩) l r)
      = (let pair := need_parens (BinaryOp.Generic ⟨op, fx⟩) l r
         let ls := if pair.1 then "(" ++ latexFormat l ++ ")" else latexFormat l
         let rs := if pair.2 then "(" ++ latexFormat r ++ ")" else latexFormat r
         match fx with
         | Fixity.Pre => op.sym.latex_repr ++ " " ++ ls ++ " " ++ rs
         | Fixity.Inf => ls ++ " " ++ op.sym.latex_repr ++ " " ++ rs
         | Fixity.Post => ls ++ " " ++ rs ++ " " ++ op.sym.latex_repr))
  ∧ (∀ (op : Op) (fx : Fixity) (l r : AST),
    unicodeFormat (AST.BinaryExpr (BinaryOp.Generic ⟨op, fx⟩) l r)
      = (match fx with
         | Fixity.Pre =>
           "(" ++ op.sym.unicode_repr ++ " " ++ unicodeFormat l ++ " " ++ unicodeFormat r ++ ")"
         | Fixity.Inf =>
           "(" ++ unicodeFormat l ++ " " ++ op.sym.unicode_repr ++ " " ++ unicodeFormat r ++ ")"
         | Fixity.Post =>
           "(" ++ unicodeFormat l ++ " " ++ unicodeFormat r ++ " " ++ op.sym.unicode_repr ++ ")")) := by
  constructor
  · intro op fx l r
    cases fx <;> simp [latexFormat]
  · intro op fx l r
    cases fx <;> simp [unicodeFormat]

/-- Claim C7 (code evaluation at the failing inputs): tokenize is NOT
total.  A single space makes the loop consume the whitespace byte, match
nothing against the now-empty rest, and reach
`rest.chars().next().unwrap()` on an empty string — a panic; and an
unrecognized multi-byte character such as "é" makes the byte slice
`&rest[1..]` fall inside a UTF-8 character — also a panic. -/
theorem c7_tokenize_panics :
  tokenize " " = RustRes.panicked ∧ tokenize "é" = RustRes.panicked :=
  ⟨rfl, rfl⟩

/-- Claim C8: the tokenizer offers the unary-capable candidate set
exactly when the previously emitted token is neither an operand nor a
closing delimiter AND the pending unknown buffer is empty; in every other
situation it offers the binary-capable set.  Concretely, "a-b" tokenizes
its "-" as binary subtraction (the pending buffer holds "a"), while "-b"
at start of input tokenizes "-" as unary minus. -/
theorem c8_unary_candidate_rule :
  (∀ (last : Option Token) (buf : List Char),
    currOps last buf =
      if (match last with
          | none => true
          | some t => !(isOperandTok t || isClosingDelimTok t)) && buf.isEmpty
      then operators.UNARY_OPS else operators.BINARY_OPS)
  ∧ tokenize "a-b"
    = RustRes.ok [Token.Operand (Symbol.fromString "a"), Token.Operator operators.SUB,
        Token.Operand (Symbol.fromString "b"), Token.End]
  ∧ tokenize "-b"
    = RustRes.ok [Token.Operator operators.UNARY_MINUS,
        Token.Operand (Symbol.fromString "b"), Token.End] := by
  refine ⟨?_, rfl, rfl⟩
  intro last buf
  cases last with
  | none => cases buf <;> rfl
  | some t =>
    cases t with
    | Operand s => rfl
    | Operator o => cases buf <;> rfl
    | Function f => cases buf <;> rfl
    | Delim d =>
      obtain ⟨dir, kind⟩ := d
      cases dir with
      | Left => cases buf <;> rfl
      | Right => rfl
    | End => cases buf <;> rfl

/-- Claim C9 (counterexample): the input "(+" leaves its opening
parenthesis unclosed, but parse fails with MissingOperands, not
MismatchedParentheses — the drained opener sits in the postfix queue
behind the unary plus, and Stage B hits the operator's empty-stack error
first. -/
theorem c9_counterexample :
  parse "(+" = RustRes.perr ParseError.MissingOperands := rfl

/-- Claim C9 (amended): an unmatched opener drained to the postfix output
is detected when Stage B reaches it — so "(1 + 2" does fail with
MismatchedParentheses — but an earlier Stage-B error (such as
MissingOperands) can preempt it, so not every unclosed-opener input
reports MismatchedParentheses. -/
theorem c9_amended_unclosed_opener :
  parse "(1 + 2" = RustRes.perr ParseError.MismatchedParentheses := rfl

/-- Claim C10 (counterexample): the claim fails in both halves.  The
input ")" consists of one orphan closing delimiter, and parse reports the
error EmptyExpr rather than no error; and "1 + 2) * 3" parses (without
error) to `(1 + 2) * 3`, which differs from the `1 + (2 * 3)` produced
when the orphan is absent — the orphan forces the pending operators out
early, so the input does NOT parse as if the orphan were removed. -/
theorem c10_counterexample :
  parse ")" = RustRes.perr ParseError.EmptyExpr
  ∧ parse "1 + 2) * 3"
    = RustRes.ok (AST.BinaryExpr (BinaryOp.Generic ⟨operators.MULT, Fixity.Inf⟩)
        (AST.BinaryExpr (BinaryOp.Generic ⟨operators.ADD, Fixity.Inf⟩)
          (symLeaf "1") (symLeaf "2"))
        (symLeaf "3"))
  ∧ parse "1 + 2 * 3"
    = RustRes.ok (AST.BinaryExpr (BinaryOp.Generic ⟨operators.ADD, Fixity.Inf⟩)
        (symLeaf "1")
        (AST.BinaryExpr (BinaryOp.Generic ⟨operators.MULT, Fixity.Inf⟩)
          (symLeaf "2") (symLeaf "3")))
  ∧ (AST.BinaryExpr (BinaryOp.Generic ⟨operators.MULT, Fixity.Inf⟩)
       (AST.BinaryExpr (BinaryOp.Generic ⟨operators.ADD, Fixity.Inf⟩)
         (symLeaf "1") (symLeaf "2"))
       (symLeaf "3"))
    ≠ (AST.BinaryExpr (BinaryOp.Generic ⟨operators.ADD, Fixity.Inf⟩)
        (symLeaf "1")
        (AST.BinaryExpr (BinaryOp.Generic ⟨operators.MULT, Fixity.Inf⟩)
          (symLeaf "2") (symLeaf "3"))) := by
  refine ⟨rfl, rfl, rfl, ?_⟩
  intro h
  injection h with h1 h2 h3
  exact absurd h1 (by decide)

/-- Claim C10 (amended): Stage A's closing-delimiter loop terminates
silently when the operator stack empties without finding an opener
(draining every stacked operator to the output), and "1 + 2)" parses
without error to the same tree as "1 + 2"; but the early drain can change
grouping relative to deleting the orphan, and an input that is only the
orphan still fails with EmptyExpr. -/
theorem c10_amended_orphan_closer :
  popUntil DelimKind.Paren [Token.Operator operators.ADD]
      [Token.Operand (Symbol.fromString "1"), Token.Operand (Symbol.fromString "2")]
    = RustRes.ok ([],
      [Token.Operand (Symbol.fromString "1"), Token.Operand (Symbol.fromString "2"),
       Token.Operator operators.ADD])
  ∧ parse "1 + 2)"
    = RustRes.ok (AST.BinaryExpr (BinaryOp.Generic ⟨operators.ADD, Fixity.Inf⟩)
        (symLeaf "1") (symLeaf "2"))
  ∧ parse "1 + 2"
    = RustRes.ok (AST.BinaryExpr (BinaryOp.Generic ⟨operators.ADD, Fixity.Inf⟩)
        (symLeaf "1") (symLeaf "2")) :=
  ⟨rfl, rfl, rfl⟩

end Panmath
